import Mathlib

/-!
Shallow embedding of the progress and navigation engine of
`src/horizontalTimeline.js` (class `WMHorizontalTimeline`).

Numbers are modelled as exact rationals.  JavaScript division is total on
IEEE floats: `a / 0` is `+Infinity` for `a > 0`, `-Infinity` for `a < 0`,
and `NaN` for `a = 0`; `Math.min` and `Math.max` propagate `NaN`, and every
ordering comparison with `NaN` is false.  Values that can be `NaN` are
modelled as `Option Rat` with `none` standing for `NaN`; the infinities
produced by a zero divisor never escape the surrounding clamp
`Math.max(lo, Math.min(hi, _))`, so they are collapsed to the clamp bounds
inside the division helpers.  Finite float arithmetic is abstracted to
exact rational arithmetic.

DOM elements queried by the engine are modelled by presence flags
(`Dom`), their read-only measurements by a `Geometry` record, and the
styles, classes and fields that the engine writes by a `TimelineState`
record.
-/

namespace HorizontalTimeline

/-- The `navigationType` setting: `"scroll"` or `"arrows"`. -/
inductive NavType
  | scroll
  | arrows
deriving DecidableEq

/-- The `mobileLayout` setting: `"horizontal"` or `"vertical"`. -/
inductive MobileLayout
  | horizontal
  | vertical
deriving DecidableEq

/-- The plugin settings consumed by the engine (`this.settings`). -/
structure Settings where
  scrollPerItem : ℚ
  navigationType : NavType
  mobileLayout : MobileLayout
deriving DecidableEq

/-- Model of `Math.max(0, Math.min(1, a / b))` as written in
`updateTimeline` (lines 415 and 445), including the JavaScript
zero-divisor cases: for `b = 0`, `a / b` is `+Infinity` when `0 < a`
(clamped to `1`), `-Infinity` when `a < 0` (clamped to `0`), and `NaN`
when `a = 0` (propagated through the clamp, modelled as `none`). -/
def clampedRatio (a b : ℚ) : Option ℚ :=
  if b = 0 then
    if 0 < a then some 1
    else if a < 0 then some 0
    else none
  else
    some (max 0 (min 1 (a / b)))

/-- Horizontal progress mapper, `updateTimeline` lines 437-445:
`scrollStart = -rect.top`, `scrollRange = this.scrollHeight - contentHeight`,
`progress = Math.max(0, Math.min(1, scrollStart / scrollRange))`. -/
def horizProgress (rectTop scrollHeight contentHeight : ℚ) : Option ℚ :=
  clampedRatio (-rectTop) (scrollHeight - contentHeight)

/-- Vertical progress mapper, `updateTimeline` lines 408-415:
`threshold = viewportHeight * 0.3`, `scrollStart = threshold - areaRect.top`,
`scrollRange = areaRect.height - threshold`, then the same clamp. -/
def vertProgress (areaTop areaHeight viewportHeight : ℚ) : Option ℚ :=
  clampedRatio (viewportHeight * (3 / 10) - areaTop)
    (areaHeight - viewportHeight * (3 / 10))

/-- The scroll-mode per-dot test `fillEdge >= dotCenter`
(`updateTimeline` lines 429 and 475); the comparison is false when the
fill edge is `NaN`. -/
def edgeFilled (fillEdge : Option ℚ) (center : ℚ) : Bool :=
  match fillEdge with
  | some e => decide (center ≤ e)
  | none => false

/-- The `this.dots.forEach` loops of `updateTimeline` (lines 425-434 and
471-480): each dot is filled exactly when the fill edge has reached its
center. -/
def scrollDotsFilled (fillEdge : Option ℚ) (centers : List ℚ) : List Bool :=
  centers.map (fun c => edgeFilled fillEdge c)

/-- Outcome of `calculateDimensions` for the scroll spacer height style:
left unchanged (early return), set to `auto`, or set to a pixel value. -/
inductive SpacerStyle
  | unchanged
  | auto
  | px (h : ℚ)
deriving DecidableEq

/-- `calculateDimensions` (lines 365-395).  Returns the new value of the
`this.scrollHeight` field together with the spacer height style applied.
`itemCount` is `this.data.length`; `stickyHeight` is the measured
`offsetHeight` of the sticky wrapper, used only when that wrapper is
present (otherwise the viewport height is used). -/
def calculateDimensions (st : Settings) (innerWidth innerHeight : ℚ)
    (itemCount : ℕ) (spacerPresent stickyWrapperPresent : Bool)
    (stickyHeight oldScrollHeight : ℚ) : ℚ × SpacerStyle :=
  if itemCount = 0 then (oldScrollHeight, SpacerStyle.unchanged)
  else if spacerPresent = false then (oldScrollHeight, SpacerStyle.unchanged)
  else if st.navigationType = NavType.arrows ∨
      (innerWidth ≤ 767 ∧ st.mobileLayout = MobileLayout.vertical) then
    (oldScrollHeight, SpacerStyle.auto)
  else
    let contentHeight := if stickyWrapperPresent then stickyHeight else innerHeight
    let scrollPerItem := if st.scrollPerItem = 0 then 300 else st.scrollPerItem
    let h := contentHeight + (itemCount : ℚ) * scrollPerItem
    (h, SpacerStyle.px h)

/-- Measured box of one rendered timeline item (`offsetLeft`,
`offsetWidth`). -/
structure ItemBox where
  offsetLeft : ℚ
  offsetWidth : ℚ
deriving DecidableEq

/-- Presence flags for every DOM element the engine queries or holds a
reference to. -/
structure Dom where
  scrollSpacer : Bool
  itemsTrack : Bool
  progressFill : Bool
  timelineArea : Bool
  progressTrack : Bool
  itemsContainer : Bool
  progressContainer : Bool
  labelsTrack : Bool
  prevButton : Bool
  nextButton : Bool
deriving DecidableEq

/-- Read-only measurements supplied by the browser during one pass. -/
structure Geometry where
  innerWidth : ℚ
  innerHeight : ℚ
  rectTop : ℚ
  stickyWrapperPresent : Bool
  stickyHeight : ℚ
  areaTop : ℚ
  areaHeight : ℚ
  vTrackTop : ℚ
  vTrackHeight : ℚ
  containerWidth : ℚ
  trackScrollWidth : ℚ
  progressLeft : ℚ
  progressWidth : ℚ
  progressTrackWidth : ℚ
  dotCenters : List ℚ
  items : List ItemBox
deriving DecidableEq

/-- The mutable observable state of one widget instance: the
`currentIndex` field, the last translation applied to each track (in px,
`none` = a `NaN` value was written), the progress fill width and height
(in percent, `none` = `NaN`), the filled flag of every dot, and the two
arrow-button disabled flags. -/
structure TimelineState where
  currentIndex : ℤ
  itemsTranslate : Option ℚ
  labelsTranslate : Option ℚ
  fillWidth : Option ℚ
  fillHeight : Option ℚ
  dotsFilled : List Bool
  prevDisabled : Bool
  nextDisabled : Bool
deriving DecidableEq

/-- `updateTimeline` (lines 397-483), as a transformer of the observable
state.  The early return fires when the scroll spacer, the items track,
or the progress fill is missing.  The vertical branch runs when
`window.innerWidth <= 767` and `mobileLayout == "vertical"`; otherwise
the horizontal branch runs with `contentHeight` taken from the sticky
wrapper when present, else the viewport height. -/
def updateTimeline (st : Settings) (scrollHeightField : ℚ) (dom : Dom)
    (g : Geometry) (s : TimelineState) : TimelineState :=
  if !(dom.scrollSpacer && dom.itemsTrack && dom.progressFill) then s
  else if g.innerWidth ≤ 767 ∧ st.mobileLayout = MobileLayout.vertical then
    if dom.timelineArea = false then s
    else
      let progress := vertProgress g.areaTop g.areaHeight g.innerHeight
      let s1 := { s with fillHeight := progress.map (fun p => p * 100),
                         fillWidth := some 100 }
      if dom.progressTrack then
        let fillBottom := progress.map (fun p => g.vTrackTop + p * g.vTrackHeight)
        { s1 with dotsFilled := scrollDotsFilled fillBottom g.dotCenters }
      else s1
  else
    let contentHeight := if g.stickyWrapperPresent then g.stickyHeight else g.innerHeight
    let progress := horizProgress g.rectTop scrollHeightField contentHeight
    let s1 := { s with fillWidth := progress.map (fun p => p * 100),
                       fillHeight := some 100 }
    let s2 :=
      if dom.itemsContainer && dom.itemsTrack then
        let maxTranslate := max 0 (g.trackScrollWidth - g.containerWidth)
        let translateX := progress.map (fun p => p * maxTranslate)
        { s1 with itemsTranslate := translateX,
                  labelsTranslate :=
                    if dom.labelsTrack then translateX else s1.labelsTranslate }
      else s1
    if dom.progressContainer then
      let fillRight := progress.map (fun p => g.progressLeft + p * g.progressWidth)
      { s2 with dotsFilled := scrollDotsFilled fillRight g.dotCenters }
    else s2

/-- Model of `Math.min(100, Math.max(0, (dotPos / trackWidth) * 100))`
(`goToIndex` line 521) with the JavaScript zero-divisor cases: for
`trackWidth = 0` the ratio is an infinity or `NaN`, clamped to `100`,
`0`, or propagated (`none`) respectively. -/
def fillPercentOf (dotPos trackWidth : ℚ) : Option ℚ :=
  if trackWidth = 0 then
    if 0 < dotPos then some 100
    else if dotPos < 0 then some 0
    else none
  else
    some (min 100 (max 0 (dotPos / trackWidth * 100)))

/-- `Math.max(0, Math.min(index, itemCount - 1))` (`goToIndex` line 490). -/
def clampIndex (n : ℕ) (i : ℤ) : ℤ :=
  max 0 (min i ((n : ℤ) - 1))

/-- `updateArrowStates` (lines 552-556): early return when either button
is missing; otherwise previous is disabled iff `currentIndex == 0` and
next is disabled iff `currentIndex >= itemCount - 1`. -/
def updateArrowStates (n : ℕ) (dom : Dom) (s : TimelineState) : TimelineState :=
  if !(dom.prevButton && dom.nextButton) then s
  else { s with prevDisabled := decide (s.currentIndex = 0),
                nextDisabled := decide ((n : ℤ) - 1 ≤ s.currentIndex) }

/-- The guarded geometry block of `goToIndex` (lines 492-530): the item
list is queried from the items track when that track is present; the
block runs only when the items container, the items track, a nonempty
rendered item list, and the progress track are all available and the
target item and target dot both exist.  It writes the track transforms
and the progress fill width; otherwise the state is passed through. -/
def goToIndexCore (n : ℕ) (dom : Dom) (g : Geometry) (ci : ℤ)
    (s1 : TimelineState) : TimelineState :=
  let items := if dom.itemsTrack then g.items else []
  if dom.itemsContainer && dom.itemsTrack && decide (0 < items.length) &&
      dom.progressTrack then
    match items.get? ci.toNat, g.dotCenters.get? ci.toNat with
    | some item, some _ =>
      let targetTranslate :=
        max 0 (item.offsetLeft - g.containerWidth / 2 + item.offsetWidth / 2)
      let maxTranslate := max 0 (g.trackScrollWidth - g.containerWidth)
      let translateX := min targetTranslate maxTranslate
      let itemCenter := item.offsetLeft + item.offsetWidth / 2
      let dotPositionAfterTranslate := itemCenter - translateX
      let fillPercent :=
        if ci = (n : ℤ) - 1 then some 100
        else fillPercentOf dotPositionAfterTranslate g.progressTrackWidth
      { s1 with itemsTranslate := some translateX,
                labelsTranslate :=
                  if dom.labelsTrack then some translateX else s1.labelsTranslate,
                fillWidth := fillPercent }
    | _, _ => s1
  else s1

/-- `goToIndex` (lines 486-538), as a transformer of the observable
state.  `n` is `this.data.length`.  The early return fires only when the
data is empty; `currentIndex` is clamped and set before any DOM query;
after the guarded geometry block, the dot filled flags (filled iff the
dot index is at most `currentIndex`) and the arrow states are updated in
every non-early-returning pass. -/
def goToIndex (n : ℕ) (dom : Dom) (g : Geometry) (index : ℤ)
    (s : TimelineState) : TimelineState :=
  if n = 0 then s
  else
    let ci : ℤ := clampIndex n index
    let s1 := { s with currentIndex := ci }
    let s2 := goToIndexCore n dom g ci s1
    let s3 := { s2 with
      dotsFilled := (List.range g.dotCenters.length).map (fun i => decide ((i : ℤ) ≤ ci)) }
    updateArrowStates n dom s3

/-- Body of the debounced resize handler registered in arrow mode
(`bindEvents` lines 567-581): after the quiet window it calls
`calculateDimensions`, then `updateTimeline` when the vertical mobile
layout is active, else `goToIndex(this.currentIndex)`.  Returns the new
`scrollHeight` field and the new observable state. -/
def arrowResizeRecompute (st : Settings) (scrollHeightField : ℚ) (dom : Dom)
    (g : Geometry) (n : ℕ) (spacerPresent : Bool) (s : TimelineState) :
    ℚ × TimelineState :=
  let dims := calculateDimensions st g.innerWidth g.innerHeight n spacerPresent
      g.stickyWrapperPresent g.stickyHeight scrollHeightField
  if g.innerWidth ≤ 767 ∧ st.mobileLayout = MobileLayout.vertical then
    (dims.1, updateTimeline st dims.1 dom g s)
  else
    (dims.1, goToIndex n dom g s.currentIndex s)

/-! ## Sample data used by witnesses and counterexamples -/

/-- A DOM in which every queried element is present. -/
def domAll : Dom := ⟨true, true, true, true, true, true, true, true, true, true⟩

/-- A DOM in which the progress track is missing. -/
def domNoProgressTrack : Dom := { domAll with progressTrack := false }

/-- A DOM in which the progress fill is missing. -/
def domNoProgressFill : Dom := { domAll with progressFill := false }

/-- Three rendered items, 100px wide, laid out side by side. -/
def itemsEx : List ItemBox := [⟨0, 100⟩, ⟨100, 100⟩, ⟨200, 100⟩]

/-- A concrete geometry for a three-item timeline. -/
def geomEx : Geometry :=
  ⟨1000, 900, 0, true, 800, 0, 400, 0, 100, 300, 300, 0, 300, 300, [50, 150, 250], itemsEx⟩

/-- A concrete starting state sitting at the first item. -/
def stateEx : TimelineState :=
  ⟨0, some 0, some 0, some 0, some 0, [true, false, false], true, false⟩

/-- Concrete scroll-mode settings with the default configuration. -/
def settingsScroll : Settings := ⟨300, NavType.scroll, MobileLayout.horizontal⟩

/-- Concrete arrow-mode settings. -/
def settingsArrows : Settings := ⟨300, NavType.arrows, MobileLayout.horizontal⟩

/-! ## Helper lemmas about the clamped ratio -/

/-- With a nonzero divisor the clamped ratio is the finite clamp. -/
theorem clampedRatio_of_ne (a b : ℚ) (hb : b ≠ 0) :
    clampedRatio a b = some (max 0 (min 1 (a / b))) := by
  simp [clampedRatio, hb]

/-- Characterization of the output `0` on a nonpositive range. -/
theorem clampedRatio_eq_zero_iff (a b : ℚ) (hb : b ≤ 0) :
    clampedRatio a b = some 0 ↔ (b < 0 ∧ 0 ≤ a) ∨ (b = 0 ∧ a < 0) := by
  rcases lt_or_eq_of_le hb with hlt | heq
  · have hbne : b ≠ 0 := ne_of_lt hlt
    simp only [clampedRatio, if_neg hbne, Option.some.injEq]
    constructor
    · intro h
      refine Or.inl ⟨hlt, ?_⟩
      by_contra hneg
      push_neg at hneg
      have hpos : 0 < a / b := div_pos_of_neg_of_neg hneg hlt
      have h1 : 0 < min 1 (a / b) := lt_min one_pos hpos
      have h2 : 0 < max 0 (min 1 (a / b)) := lt_of_lt_of_le h1 (le_max_right _ _)
      rw [h] at h2
      exact lt_irrefl 0 h2
    · rintro (⟨_, ha⟩ | ⟨hbz, _⟩)
      · have hdiv : a / b ≤ 0 := div_nonpos_of_nonneg_of_nonpos ha hb
        have hmin : min 1 (a / b) ≤ 0 := le_trans (min_le_right _ _) hdiv
        exact max_eq_left hmin
      · exact absurd hbz hbne
  · subst heq
    rcases lt_trichotomy a 0 with h | h | h
    · simp [clampedRatio, h, not_lt.mpr h.le]
    · simp [clampedRatio, h]
    · simp [clampedRatio, h, not_lt.mpr h.le, asymm h]

/-- Away from the `0 / 0` geometry the clamped ratio is a rational in
`[0, 1]`. -/
theorem clampedRatio_mem_unit (a b : ℚ) (h : ¬(a = 0 ∧ b = 0)) :
    ∃ q, clampedRatio a b = some q ∧ 0 ≤ q ∧ q ≤ 1 := by
  by_cases hb : b = 0
  · have ha : a ≠ 0 := fun h0 => h ⟨h0, hb⟩
    rcases ha.lt_or_lt with hlt | hgt
    · exact ⟨0, by simp [clampedRatio, hb, hlt, asymm hlt], le_refl 0, zero_le_one⟩
    · exact ⟨1, by simp [clampedRatio, hb, hgt], zero_le_one, le_refl 1⟩
  · exact ⟨max 0 (min 1 (a / b)), by simp [clampedRatio, hb], le_max_left _ _,
      max_le zero_le_one (min_le_left _ _)⟩

/-- On a positive range the clamped ratio is monotone in the numerator. -/
theorem clampedRatio_mono (b : ℚ) (hb : 0 < b) (a1 a2 q1 q2 : ℚ)
    (ha : a1 ≤ a2) (h1 : clampedRatio a1 b = some q1)
    (h2 : clampedRatio a2 b = some q2) : q1 ≤ q2 := by
  have hbne : b ≠ 0 := ne_of_gt hb
  simp only [clampedRatio, if_neg hbne, Option.some.injEq] at h1 h2
  subst h1
  subst h2
  have hdiv : a1 / b ≤ a2 / b := (div_le_div_iff_of_pos_right hb).mpr ha
  exact max_le_max le_rfl (min_le_min le_rfl hdiv)

/-- `Math.min(Math.max(0, e), M)` agrees with the clamp
`max 0 (min e M)` whenever `0 ≤ M`. -/
theorem min_max_zero_eq_clamp (e M : ℚ) (hM : 0 ≤ M) :
    min (max 0 e) M = max 0 (min e M) := by
  rw [max_min_distrib_left, max_eq_right hM]

/-! ## Helper lemmas about the state transformers -/

/-- `updateArrowStates` never writes `currentIndex`. -/
theorem updateArrowStates_currentIndex (n : ℕ) (dom : Dom) (s : TimelineState) :
    (updateArrowStates n dom s).currentIndex = s.currentIndex := by
  unfold updateArrowStates
  split <;> rfl

/-- `updateArrowStates` never writes the item track translation. -/
theorem updateArrowStates_itemsTranslate (n : ℕ) (dom : Dom) (s : TimelineState) :
    (updateArrowStates n dom s).itemsTranslate = s.itemsTranslate := by
  unfold updateArrowStates
  split <;> rfl

/-- `updateArrowStates` never writes the label track translation. -/
theorem updateArrowStates_labelsTranslate (n : ℕ) (dom : Dom) (s : TimelineState) :
    (updateArrowStates n dom s).labelsTranslate = s.labelsTranslate := by
  unfold updateArrowStates
  split <;> rfl

/-- `updateArrowStates` never writes the fill width. -/
theorem updateArrowStates_fillWidth (n : ℕ) (dom : Dom) (s : TimelineState) :
    (updateArrowStates n dom s).fillWidth = s.fillWidth := by
  unfold updateArrowStates
  split <;> rfl

/-- `updateArrowStates` never writes the dot filled flags. -/
theorem updateArrowStates_dotsFilled (n : ℕ) (dom : Dom) (s : TimelineState) :
    (updateArrowStates n dom s).dotsFilled = s.dotsFilled := by
  unfold updateArrowStates
  split <;> rfl

/-- `updateTimeline` never writes the `currentIndex` field. -/
theorem updateTimeline_currentIndex (st : Settings) (shf : ℚ) (dom : Dom)
    (g : Geometry) (s : TimelineState) :
    (updateTimeline st shf dom g s).currentIndex = s.currentIndex := by
  unfold updateTimeline
  split_ifs <;> rfl

/-- The guarded geometry block never writes `currentIndex`. -/
theorem goToIndexCore_currentIndex (n : ℕ) (dom : Dom) (g : Geometry) (ci : ℤ)
    (s1 : TimelineState) :
    (goToIndexCore n dom g ci s1).currentIndex = s1.currentIndex := by
  unfold goToIndexCore
  dsimp only []
  repeat' split
  all_goals rfl

/-- The guarded geometry block never writes the dot filled flags. -/
theorem goToIndexCore_dotsFilled (n : ℕ) (dom : Dom) (g : Geometry) (ci : ℤ)
    (s1 : TimelineState) :
    (goToIndexCore n dom g ci s1).dotsFilled = s1.dotsFilled := by
  unfold goToIndexCore
  dsimp only []
  repeat' split
  all_goals rfl

/-- Unfolding equation for `goToIndex` on nonempty data. -/
theorem goToIndex_eq (n : ℕ) (dom : Dom) (g : Geometry) (i : ℤ)
    (s : TimelineState) (hn : n ≠ 0) :
    goToIndex n dom g i s =
      updateArrowStates n dom
        { goToIndexCore n dom g (clampIndex n i) { s with currentIndex := clampIndex n i } with
          dotsFilled := (List.range g.dotCenters.length).map
            (fun k => decide ((k : ℤ) ≤ clampIndex n i)) } := by
  unfold goToIndex
  rw [if_neg hn]

/-- On nonempty data, `goToIndex` always sets `currentIndex` to the
clamped index. -/
theorem goToIndex_currentIndex (n : ℕ) (dom : Dom) (g : Geometry) (i : ℤ)
    (s : TimelineState) (hn : n ≠ 0) :
    (goToIndex n dom g i s).currentIndex = clampIndex n i := by
  rw [goToIndex_eq n dom g i s hn, updateArrowStates_currentIndex]
  exact goToIndexCore_currentIndex n dom g (clampIndex n i) _

/-- With a missing progress track the guarded geometry block is skipped
entirely. -/
theorem goToIndexCore_noProgressTrack (n : ℕ) (dom : Dom) (g : Geometry)
    (ci : ℤ) (s1 : TimelineState) (hpt : dom.progressTrack = false) :
    goToIndexCore n dom g ci s1 = s1 := by
  simp [goToIndexCore, hpt]

/-- With the items container, items track, progress track, and the
target item and target dot all available, the guarded geometry block
writes exactly the track transforms and the fill width. -/
theorem goToIndexCore_found (n : ℕ) (dom : Dom) (g : Geometry) (ci : ℤ)
    (s1 : TimelineState) (item : ItemBox) (c : ℚ)
    (hic : dom.itemsContainer = true) (hit : dom.itemsTrack = true)
    (hpt : dom.progressTrack = true) (hlen : 0 < g.items.length)
    (hitem : g.items.get? ci.toNat = some item)
    (hdot : g.dotCenters.get? ci.toNat = some c) :
    goToIndexCore n dom g ci s1 =
      { s1 with
        itemsTranslate := some (min (max 0 (item.offsetLeft - g.containerWidth / 2 +
            item.offsetWidth / 2)) (max 0 (g.trackScrollWidth - g.containerWidth))),
        labelsTranslate := if dom.labelsTrack then
            some (min (max 0 (item.offsetLeft - g.containerWidth / 2 +
              item.offsetWidth / 2)) (max 0 (g.trackScrollWidth - g.containerWidth)))
          else s1.labelsTranslate,
        fillWidth := if ci = (n : ℤ) - 1 then some 100
          else fillPercentOf (item.offsetLeft + item.offsetWidth / 2 -
            min (max 0 (item.offsetLeft - g.containerWidth / 2 + item.offsetWidth / 2))
              (max 0 (g.trackScrollWidth - g.containerWidth))) g.progressTrackWidth } := by
  unfold goToIndexCore
  dsimp only []
  rw [hit]
  simp only [if_true]
  rw [if_pos (by simp [hic, hit, hpt, hlen]), hitem, hdot]

/-- The guarded geometry block preserves the lock between the two track
translations. -/
theorem goToIndexCore_lock (n : ℕ) (dom : Dom) (g : Geometry) (ci : ℤ)
    (s1 : TimelineState) (hl : dom.labelsTrack = true)
    (h : s1.itemsTranslate = s1.labelsTranslate) :
    (goToIndexCore n dom g ci s1).itemsTranslate =
      (goToIndexCore n dom g ci s1).labelsTranslate := by
  unfold goToIndexCore
  dsimp only []
  repeat' split
  all_goals simp_all

/-! ## Claim C1 -/

/-- C1, counterexample: the claim says that every geometry with
`scrollRange ≤ 0` yields fraction exactly `0`.  With `scrollHeight = 0`
and `contentHeight = 800` the scroll range is `-800 ≤ 0`, yet at spacer
top `800` the horizontal Progress Mapper yields fraction `1`, not `0`
(the code has no special case: it evaluates the clamped ratio
`(-800) / (-800) = 1`). -/
theorem c1_counterexample :
    (0 : ℚ) - 800 ≤ 0 ∧ horizProgress 800 0 800 = some 1 := by
  constructor
  · norm_num
  · norm_num [horizProgress, clampedRatio, min_def, max_def]

/-- C1, amended: on a zero or negative scroll range the Progress Mapper
has no special case returning `0`; it still evaluates the clamped ratio,
which is `0` exactly when the range is negative and the scroll start is
nonnegative (`rectTop ≤ 0`, resp. `areaTop` at or above the threshold),
or the range is zero and the scroll start negative; otherwise it yields
a positive clamped value up to `1`, or `NaN` when start and range are
both zero. -/
theorem c1_amended :
    (∀ rectTop scrollHeight contentHeight : ℚ, scrollHeight - contentHeight ≤ 0 →
      (horizProgress rectTop scrollHeight contentHeight = some 0 ↔
        (scrollHeight - contentHeight < 0 ∧ rectTop ≤ 0) ∨
        (scrollHeight - contentHeight = 0 ∧ 0 < rectTop))) ∧
    (∀ areaTop areaHeight viewportHeight : ℚ,
      areaHeight - viewportHeight * (3 / 10) ≤ 0 →
      (vertProgress areaTop areaHeight viewportHeight = some 0 ↔
        (areaHeight - viewportHeight * (3 / 10) < 0 ∧
          areaTop ≤ viewportHeight * (3 / 10)) ∨
        (areaHeight - viewportHeight * (3 / 10) = 0 ∧
          viewportHeight * (3 / 10) < areaTop))) := by
  constructor
  · intro rectTop scrollHeight contentHeight h
    rw [horizProgress, clampedRatio_eq_zero_iff _ _ h]
    simp [neg_nonneg, neg_neg_iff_pos]
  · intro areaTop areaHeight viewportHeight h
    rw [vertProgress, clampedRatio_eq_zero_iff _ _ h]
    simp [sub_nonneg, sub_neg]

/-- C1, witness for the amended theorem: a degenerate geometry
(`scrollRange = -200 < 0`) with the page at the spacer top does yield
fraction `0`. -/
theorem c1_witness : horizProgress 0 100 300 = some 0 :=
  (c1_amended.1 0 100 300 (by norm_num)).mpr (Or.inl ⟨by norm_num, le_refl 0⟩)

/-! ## Claim C2 -/

/-- C2, counterexample: the claim says that for every input geometry the
Progress Mapper yields a real number in `[0, 1]`.  At the geometry with
`rect.top = 0` and `scrollHeight = contentHeight = 500` the code divides
`0 / 0`, which in JavaScript is `NaN`; `Math.min` and `Math.max`
propagate it, so the produced fraction is `NaN` (modelled `none`), not a
real number in `[0, 1]`. -/
theorem c2_counterexample : horizProgress 0 500 500 = none := by
  norm_num [horizProgress, clampedRatio]

/-- C2, amended: for every geometry other than the single point where
the scroll start and the scroll range are both zero (the `0 / 0`
geometry), the Progress Mapper yields a rational fraction in `[0, 1]`,
in both orientations. -/
theorem c2_amended :
    (∀ rectTop scrollHeight contentHeight : ℚ,
      ¬(rectTop = 0 ∧ scrollHeight = contentHeight) →
      ∃ q, horizProgress rectTop scrollHeight contentHeight = some q ∧
        0 ≤ q ∧ q ≤ 1) ∧
    (∀ areaTop areaHeight viewportHeight : ℚ,
      ¬(areaTop = viewportHeight * (3 / 10) ∧
        areaHeight = viewportHeight * (3 / 10)) →
      ∃ q, vertProgress areaTop areaHeight viewportHeight = some q ∧
        0 ≤ q ∧ q ≤ 1) := by
  constructor
  · intro rectTop scrollHeight contentHeight h
    refine clampedRatio_mem_unit _ _ ?_
    rintro ⟨ha, hb⟩
    exact h ⟨by linarith [neg_eq_zero.mp ha], by linarith⟩
  · intro areaTop areaHeight viewportHeight h
    refine clampedRatio_mem_unit _ _ ?_
    rintro ⟨ha, hb⟩
    exact h ⟨by linarith, by linarith⟩

/-- C2, witness for the amended theorem at the spec scenario geometry. -/
theorem c2_witness :
    ∃ q, horizProgress (-500) 2300 800 = some q ∧ 0 ≤ q ∧ q ≤ 1 :=
  c2_amended.1 (-500) 2300 800 (by norm_num)

/-! ## Claim C4 -/

/-- C4: in horizontal scroll mode, on every geometry with positive
scroll range the Progress Mapper computes exactly
`clamp((-stickyTop) / scrollRange, 0, 1)`; and the spec scenario
`stickyTop = -500`, `scrollHeight = 2300`, `contentHeight = 800` yields
fraction `500 / 1500 = 1/3`. -/
theorem c4_horizontal_formula :
    (∀ rectTop scrollHeight contentHeight : ℚ, 0 < scrollHeight - contentHeight →
      horizProgress rectTop scrollHeight contentHeight =
        some (max 0 (min 1 ((-rectTop) / (scrollHeight - contentHeight))))) ∧
    horizProgress (-500) 2300 800 = some (1 / 3) := by
  constructor
  · intro rectTop scrollHeight contentHeight h
    exact clampedRatio_of_ne _ _ (ne_of_gt h)
  · norm_num [horizProgress, clampedRatio, min_def, max_def]

/-- C4, witness: the formula applied at the spec scenario geometry. -/
theorem c4_witness :
    horizProgress (-500) 2300 800 =
      some (max 0 (min 1 ((-(-500 : ℚ)) / (2300 - 800)))) :=
  c4_horizontal_formula.1 (-500) 2300 800 (by norm_num)

/-! ## Claim C3 -/

/-- C3, counterexample: the claim says that a pass with a missing DOM
target (here the progress track during `goToIndex`) returns early with
no partial mutation, `currentIndex` and the dot states included.  In
fact `goToIndex 2` on a three-item timeline with the progress track
missing still moves `currentIndex` from `0` to `2` and fills all three
dots. -/
theorem c3_counterexample :
    (goToIndex 3 domNoProgressTrack geomEx 2 stateEx).currentIndex = 2 ∧
    stateEx.currentIndex = 0 ∧
    (goToIndex 3 domNoProgressTrack geomEx 2 stateEx).dotsFilled =
      [true, true, true] ∧
    stateEx.dotsFilled = [true, false, false] := by
  refine ⟨by decide, by decide, by decide, by decide⟩

/-- C3, amended: only the guards at the top of a pass give a full early
return with no mutation: `updateTimeline` when the scroll spacer, the
items track, or the progress fill is missing, and `goToIndex` when the
item data is empty.  A target missing later in the pass only skips that
stage: `goToIndex` with a missing progress track still sets
`currentIndex` to the clamped index, rewrites every dot filled flag from
the index comparison, and refreshes the arrow button states, leaving
only the translations and the fill width untouched. -/
theorem c3_amended :
    (∀ (st : Settings) (shf : ℚ) (dom : Dom) (g : Geometry) (s : TimelineState),
      dom.scrollSpacer = false ∨ dom.itemsTrack = false ∨ dom.progressFill = false →
      updateTimeline st shf dom g s = s) ∧
    (∀ (dom : Dom) (g : Geometry) (i : ℤ) (s : TimelineState),
      goToIndex 0 dom g i s = s) ∧
    (∀ (n : ℕ) (dom : Dom) (g : Geometry) (i : ℤ) (s : TimelineState),
      n ≠ 0 → dom.progressTrack = false →
      goToIndex n dom g i s =
        updateArrowStates n dom
          { s with currentIndex := clampIndex n i,
                   dotsFilled := (List.range g.dotCenters.length).map
                     (fun k => decide ((k : ℤ) ≤ clampIndex n i)) }) := by
  refine ⟨?_, ?_, ?_⟩
  · intro st shf dom g s h
    unfold updateTimeline
    rcases h with h | h | h <;> simp [h]
  · intro dom g i s
    simp [goToIndex]
  · intro n dom g i s hn hpt
    rw [goToIndex_eq n dom g i s hn,
      goToIndexCore_noProgressTrack n dom g (clampIndex n i) _ hpt]

/-- C3, witness for the amended theorem: a missing progress fill makes
`updateTimeline` a no-op on a concrete state. -/
theorem c3_witness :
    updateTimeline settingsScroll 2300 domNoProgressFill geomEx stateEx = stateEx :=
  c3_amended.1 settingsScroll 2300 domNoProgressFill geomEx stateEx
    (Or.inr (Or.inr rfl))

/-! ## Claim C5 -/

/-- C5: on nonempty data with the full arrow-mode DOM available,
`goToIndex i` sets `currentIndex` to `i` clamped into
`[0, itemCount - 1]`, translates the item track by
`clamp(itemOffset - containerLength/2 + itemLength/2, 0, maxTranslate)`,
and forces the fill to `100%` whenever the clamped index is the last
index. -/
theorem c5_goToIndex (n : ℕ) (dom : Dom) (g : Geometry) (i : ℤ)
    (s : TimelineState) (item : ItemBox) (c : ℚ)
    (hn : n ≠ 0)
    (hic : dom.itemsContainer = true) (hit : dom.itemsTrack = true)
    (hpt : dom.progressTrack = true) (hlen : 0 < g.items.length)
    (hitem : g.items.get? (clampIndex n i).toNat = some item)
    (hdot : g.dotCenters.get? (clampIndex n i).toNat = some c) :
    (goToIndex n dom g i s).currentIndex = clampIndex n i ∧
    0 ≤ clampIndex n i ∧ clampIndex n i ≤ (n : ℤ) - 1 ∧
    (goToIndex n dom g i s).itemsTranslate =
      some (max 0 (min (item.offsetLeft - g.containerWidth / 2 + item.offsetWidth / 2)
        (max 0 (g.trackScrollWidth - g.containerWidth)))) ∧
    (clampIndex n i = (n : ℤ) - 1 → (goToIndex n dom g i s).fillWidth = some 100) := by
  have hcore := goToIndexCore_found n dom g (clampIndex n i)
    { s with currentIndex := clampIndex n i } item c hic hit hpt hlen hitem hdot
  refine ⟨goToIndex_currentIndex n dom g i s hn, le_max_left 0 _, ?_, ?_, ?_⟩
  · refine max_le ?_ (min_le_right _ _)
    have h1 : 1 ≤ (n : ℤ) := by exact_mod_cast Nat.one_le_iff_ne_zero.mpr hn
    omega
  · rw [goToIndex_eq n dom g i s hn, updateArrowStates_itemsTranslate]
    dsimp only []
    rw [hcore]
    dsimp only []
    rw [min_max_zero_eq_clamp _ _ (le_max_left 0 _)]
  · intro hlast
    rw [goToIndex_eq n dom g i s hn, updateArrowStates_fillWidth]
    dsimp only []
    rw [hcore]
    dsimp only []
    rw [if_pos hlast]

/-- C5, witness: on the concrete three-item timeline, `goToIndex 5`
clamps to the last index `2`, and the fill is forced to `100%`. -/
theorem c5_witness : (goToIndex 3 domAll geomEx 5 stateEx).fillWidth = some 100 :=
  (c5_goToIndex 3 domAll geomEx 5 stateEx ⟨200, 100⟩ 250 (by norm_num) rfl rfl rfl
    (by norm_num [geomEx, itemsEx]) (by decide) (by decide)).2.2.2.2
    (by norm_num [clampIndex])

/-! ## Claim C6 -/

/-- C6, lock invariant: whenever the labels track reference is present
and the two track translations agree before a pass, they agree after it,
both for the scroll-mode pass `updateTimeline` and for the arrow-mode
pass `goToIndex`: every write of the item track translation is mirrored
verbatim onto the labels track. -/
theorem c6_lock_invariant :
    (∀ (st : Settings) (shf : ℚ) (dom : Dom) (g : Geometry) (s : TimelineState),
      dom.labelsTrack = true → s.itemsTranslate = s.labelsTranslate →
      (updateTimeline st shf dom g s).itemsTranslate =
        (updateTimeline st shf dom g s).labelsTranslate) ∧
    (∀ (n : ℕ) (dom : Dom) (g : Geometry) (i : ℤ) (s : TimelineState),
      dom.labelsTrack = true → s.itemsTranslate = s.labelsTranslate →
      (goToIndex n dom g i s).itemsTranslate =
        (goToIndex n dom g i s).labelsTranslate) := by
  constructor
  · intro st shf dom g s hl h
    unfold updateTimeline
    dsimp only []
    split_ifs <;> simp_all
  · intro n dom g i s hl h
    by_cases hn : n = 0
    · subst hn
      simpa [goToIndex] using h
    · rw [goToIndex_eq n dom g i s hn, updateArrowStates_itemsTranslate,
        updateArrowStates_labelsTranslate]
      dsimp only []
      exact goToIndexCore_lock n dom g (clampIndex n i) _ hl h

/-- C6, witness: the lock holds after a concrete arrow-mode pass. -/
theorem c6_witness :
    (goToIndex 3 domAll geomEx 1 stateEx).itemsTranslate =
      (goToIndex 3 domAll geomEx 1 stateEx).labelsTranslate :=
  c6_lock_invariant.2 3 domAll geomEx 1 stateEx rfl rfl

/-! ## Claim C7 -/

/-- C7: for a nonempty timeline with positive `scrollPerItem` and the
spacer present, the scroll-driven horizontal mode sets
`scrollHeight = contentHeight + itemCount * scrollPerItem` and applies
it as the spacer pixel height; arrow mode or the active vertical mobile
layout instead applies the spacer height `auto` and leaves the
`scrollHeight` field alone; the spec scenario `itemCount = 5`,
`scrollPerItem = 300`, `contentHeight = 800` gives `2300`. -/
theorem c7_dimensions (st : Settings) (iw ih : ℚ) (n : ℕ) (sticky : Bool)
    (sh old : ℚ) (hn : n ≠ 0) (hspi : 0 < st.scrollPerItem) :
    (st.navigationType = NavType.scroll →
      ¬(iw ≤ 767 ∧ st.mobileLayout = MobileLayout.vertical) →
      sticky = true →
      calculateDimensions st iw ih n true sticky sh old =
        (sh + (n : ℚ) * st.scrollPerItem,
          SpacerStyle.px (sh + (n : ℚ) * st.scrollPerItem))) ∧
    ((st.navigationType = NavType.arrows ∨
        (iw ≤ 767 ∧ st.mobileLayout = MobileLayout.vertical)) →
      calculateDimensions st iw ih n true sticky sh old = (old, SpacerStyle.auto)) ∧
    calculateDimensions settingsScroll 1000 900 5 true true 800 0 =
      (2300, SpacerStyle.px 2300) := by
  refine ⟨?_, ?_, ?_⟩
  · intro hnav hmob hsticky
    unfold calculateDimensions
    rw [if_neg hn, if_neg (by simp), if_neg (by simp [hnav, hmob])]
    simp [hsticky, hspi.ne']
  · intro hor
    unfold calculateDimensions
    rw [if_neg hn, if_neg (by simp), if_pos hor]
  · unfold calculateDimensions settingsScroll
    norm_num
    decide

/-- C7, witness: the scenario applied through the theorem. -/
theorem c7_witness :
    calculateDimensions settingsScroll 1000 900 5 true true 800 0 =
      (2300, SpacerStyle.px 2300) :=
  (c7_dimensions settingsScroll 1000 900 5 true 800 0 (by norm_num)
    (by norm_num [settingsScroll])).2.2

/-! ## Claim C8 -/

/-- C8, counterexample: the claim says that for every fixed geometry an
increasing scroll offset never decreases the fraction.  On the
degenerate geometry `scrollHeight = 0`, `contentHeight = 800`
(scroll range `-800`), scrolling 400px further down (spacer top `800`
to `400`) drops the fraction from `1` to `1/2`. -/
theorem c8_counterexample :
    horizProgress 800 0 800 = some 1 ∧ horizProgress 400 0 800 = some (1 / 2) := by
  constructor <;> norm_num [horizProgress, clampedRatio, min_def, max_def]

/-- C8, amended: for fixed geometry with positive scroll range,
increasing the scroll offset (which lowers `rect.top`, resp. the area
top) never decreases the fraction, in both orientations; on a negative
range the relation reverses, so the positivity restriction is needed. -/
theorem c8_amended :
    (∀ scrollHeight contentHeight rt1 rt2 q1 q2 : ℚ,
      0 < scrollHeight - contentHeight → rt2 ≤ rt1 →
      horizProgress rt1 scrollHeight contentHeight = some q1 →
      horizProgress rt2 scrollHeight contentHeight = some q2 → q1 ≤ q2) ∧
    (∀ areaHeight viewportHeight at1 at2 q1 q2 : ℚ,
      0 < areaHeight - viewportHeight * (3 / 10) → at2 ≤ at1 →
      vertProgress at1 areaHeight viewportHeight = some q1 →
      vertProgress at2 areaHeight viewportHeight = some q2 → q1 ≤ q2) := by
  constructor
  · intro sH cH rt1 rt2 q1 q2 hr hle h1 h2
    exact clampedRatio_mono _ hr _ _ _ _ (by linarith) h1 h2
  · intro aH vH at1 at2 q1 q2 hr hle h1 h2
    exact clampedRatio_mono _ hr _ _ _ _ (by linarith) h1 h2

/-- C8, witness: on the spec scenario geometry, scrolling 750px down
from the spacer top raises the fraction from `0` to `1/2`. -/
theorem c8_witness : (0 : ℚ) ≤ 1 / 2 :=
  c8_amended.1 2300 800 0 (-750) 0 (1 / 2) (by norm_num) (by norm_num)
    (by norm_num [horizProgress, clampedRatio, min_def, max_def])
    (by norm_num [horizProgress, clampedRatio, min_def, max_def])

/-! ## Claim C9 -/

/-- C9: in horizontal scroll mode at fraction `f`, with the fill edge
`progressLeft + f * progressWidth`, if dot `i` is computed as filled and
dot `j < i` has its center at or before the center of dot `i`, then dot
`j` is computed as filled too. -/
theorem c9_dot_monotone (f progressLeft progressWidth : ℚ) (centers : List ℚ)
    (i j : ℕ) (hj : j < i) (hi : i < centers.length)
    (hord : centers.get ⟨j, lt_trans hj hi⟩ ≤ centers.get ⟨i, hi⟩)
    (hfill : (scrollDotsFilled (some (progressLeft + f * progressWidth)) centers).get
      ⟨i, by simpa [scrollDotsFilled] using hi⟩ = true) :
    (scrollDotsFilled (some (progressLeft + f * progressWidth)) centers).get
      ⟨j, by simpa [scrollDotsFilled] using lt_trans hj hi⟩ = true := by
  have hj' : j < centers.length := lt_trans hj hi
  simp only [scrollDotsFilled, List.get_eq_getElem, List.getElem_map, edgeFilled,
    decide_eq_true_eq] at hfill ⊢
  have hord' : centers[j] ≤ centers[i] := by
    simpa [List.get_eq_getElem] using hord
  exact le_trans hord' hfill

/-- C9, witness: at fraction `1/2` on a 100px progress bar with dot
centers `10, 20, 30`, dot `1` is filled, hence dot `0` is filled. -/
theorem c9_witness :
    (scrollDotsFilled (some ((0 : ℚ) + (1 / 2) * 100)) [10, 20, 30]).get
      ⟨0, by simp [scrollDotsFilled]⟩ = true :=
  c9_dot_monotone (1 / 2) 0 100 [10, 20, 30] 1 0 (by norm_num) (by norm_num)
    (by norm_num) (by norm_num [scrollDotsFilled, edgeFilled])

/-! ## Claim C10 -/

/-- C10: the debounced arrow-mode resize recomputation never moves
`currentIndex` when it is already in range for the (unchanged) item
count: the vertical branch runs `updateTimeline`, which does not touch
`currentIndex`, and the other branch re-invokes `goToIndex` with the
existing `currentIndex`, whose clamping is the identity on an in-range
index. -/
theorem c10_resize_preserves_index (st : Settings) (shf : ℚ) (dom : Dom)
    (g : Geometry) (n : ℕ) (sp : Bool) (s : TimelineState)
    (h0 : 0 ≤ s.currentIndex) (h1 : s.currentIndex ≤ (n : ℤ) - 1) :
    (arrowResizeRecompute st shf dom g n sp s).2.currentIndex = s.currentIndex := by
  unfold arrowResizeRecompute
  dsimp only []
  split
  · exact updateTimeline_currentIndex st _ dom g s
  · by_cases hn : n = 0
    · subst hn
      simp [goToIndex]
    · rw [goToIndex_currentIndex n dom g s.currentIndex s hn]
      unfold clampIndex
      rw [min_eq_left h1, max_eq_right h0]

/-- C10, witness: a concrete arrow-mode resize pass on the three-item
timeline keeps the current index. -/
theorem c10_witness :
    (arrowResizeRecompute settingsArrows 0 domAll geomEx 3 true stateEx).2.currentIndex =
      stateEx.currentIndex :=
  c10_resize_preserves_index settingsArrows 0 domAll geomEx 3 true stateEx
    (by norm_num [stateEx]) (by norm_num [stateEx])

end HorizontalTimeline
